import Mathlib

/-!
# Verification of the Sentinel monitoring state machine (secure-recoder)

Shallow embedding of the core monitoring / alert-lifecycle logic of the
repository.  The repository contains two near-identical variants of the
application component:

* `App.tsx` part 1 ("v6.0"): state `currentStatus` / `biometricSignature` /
  `securityVault` / `isShieldActive` / `isAiProcessing`, functions
  `executeNeuralAudit`, `launchStealthEvidenceEngine`, `toggleSentinelShield`,
  `handleBiometricEnrollment`, `handleVaultPurge`, and the startup sync
  (initializeSentinel) plus the audit-interval effect keyed on `isShieldActive`.
* `App.tsx` part 2 ("v4.0"): state `mode` / `ownerFace` / `logs` /
  `isMonitoring` / `isProcessingNeuralAudit`, functions `runSecurityAudit`,
  `executeStealthRecording`, `toggleArmingSystem`, `purgeLogs`, and the
  audit-interval effect keyed on `isMonitoring`.

External collaborators (camera capture, the Gemini analysis/chat calls, the
Supabase table and storage bucket, `Math.random`) are modelled as explicit
inputs: each audit invocation receives the captured frame (`Option`, since
capture can fail), the detection outcome, the classify result (`none` models a
rejected `analyzeIntrusion` promise), the persistence outcome, and the
evidence-engine outcomes.  The Supabase `security_logs` table is carried as an
explicit list so that frame conditions about the remote store can be stated.
Timers (`setInterval` for audits, the re-arm `setTimeout`) are modelled as the
armed-flag / pending-count they are in the source, with explicit events that
fire them; the absolute firing time of a re-arm timeout is computed by
threading the durations of the awaited service calls through the workflow.
-/

namespace SecureRecoder

/-! ## Data model (`types.ts`) -/

/-- `SecurityMode` enum from `types.ts`: IDLE, ENROLLING, MONITORING, ALERT. -/
inductive SecurityMode
  | IDLE
  | ENROLLING
  | MONITORING
  | ALERT
deriving DecidableEq, Repr

/-- Status values of a `SecurityLog` (`types.ts`): Detected, Neutralized, Archived. -/
inductive LogStatus
  | Detected
  | Neutralized
  | Archived
deriving DecidableEq, Repr

/-- `SecurityLog` record from `types.ts` (the local incident record). -/
structure SecurityLog where
  id : String
  timestamp : Nat
  intruderImage : String
  screenRecordingUrl : Option String
  status : LogStatus
  threatLevel : String
  aiAnalysis : Option String
deriving DecidableEq, Repr

/-- One row of the remote Supabase `security_logs` table, with the column
names used by the source (`intruder_image`, `ai_analysis`, `threat_level`,
`screen_recording_url`, `created_at`). -/
structure RemoteRow where
  id : String
  created_at : Nat
  intruder_image : String
  ai_analysis : Option String
  threat_level : String
  screen_recording_url : Option String
deriving DecidableEq, Repr

/-- UI status of the v6.0 variant: `SentinelUIStatus = SecurityMode |
'ENROLLING' | 'INITIALIZING' | 'HARDWARE_FAULT'` (ENROLLING is already a
`SecurityMode` member, so the union has six values). -/
inductive SentinelStatus
  | BOOTING        -- the source's 'INITIALIZING' literal
  | HARDWARE_FAULT
  | IDLE
  | ENROLLING
  | MONITORING
  | ALERT
deriving DecidableEq, Repr

/-- `ENGINE_CONFIG.TIMING.ALERT_DURATION` (v6.0): re-arm cooldown in ms. -/
def ALERT_DURATION : Nat := 30000

/-- `ENGINE_CONFIG.TIMING.AUDIT_TICK` (v6.0): audit interval in ms. -/
def AUDIT_TICK : Nat := 4000

/-- `CONFIG.AUDIT.ALERT_COOLDOWN` (v4.0): re-arm cooldown in ms. -/
def ALERT_COOLDOWN : Nat := 25000

/-- `CONFIG.AUDIT.SCAN_INTERVAL` (v4.0): audit interval in ms. -/
def SCAN_INTERVAL : Nat := 4500

/-! ## v6.0 variant: application state -/

/-- State of the v6.0 `App` component, restricted to the fields the
monitoring state machine reads or writes.  `auditTimerArmed` models
`auditIntervalId.current ≠ null` as maintained by the interval effect;
`pendingReArms` counts outstanding re-arm `setTimeout`s; `remote` carries the
Supabase `security_logs` table. -/
structure SentinelState where
  currentStatus : SentinelStatus
  biometricSignature : Option String
  securityVault : List SecurityLog
  isShieldActive : Bool
  isAiProcessing : Bool
  auditTimerArmed : Bool
  pendingReArms : Nat
  remote : List RemoteRow
deriving DecidableEq, Repr

/-- Outcomes of the evidence-gathering collaborators used by
`launchStealthEvidenceEngine` / `executeStealthRecording`:
whether `getDisplayMedia` resolves, the `uploadVideoToVault` result
(`none` models a refused upload), and whether the Supabase `update`
of `screen_recording_url` succeeds. -/
structure EvidenceEnv where
  permissionGranted : Bool
  vaultUrl : Option String
  dbUpdateOk : Bool
deriving DecidableEq, Repr

/-- Environment of one audit invocation: the captured frame (`none` models a
failed `captureNeuralSignature`/`captureNeuralSnapshot`), the random detection
outcome, the classify result (`none` models `analyzeIntrusion` rejecting), the
insert outcome and the row id the database assigns, the evidence outcomes, and
the wall-clock durations of the three awaited steps (classify, persist,
evidence) in ms. -/
structure AuditEnv where
  frame : Option String
  threatDetected : Bool
  classifyResult : Option String
  persistOk : Bool
  dbId : String
  evidence : EvidenceEnv
  classifyMs : Nat
  persistMs : Nat
  evidenceMs : Nat
deriving DecidableEq, Repr

/-- Map over the local vault performed by the evidence engine after a
successful upload and database update: the matching record gets the public
url and status `Archived` (both variants use the same `prev.map`). -/
def archiveInVault (vault : List SecurityLog) (dbRowId url : String) :
    List SecurityLog :=
  vault.map fun log =>
    if log.id = dbRowId then
      { log with screenRecordingUrl := some url, status := LogStatus.Archived }
    else log

/-- The Supabase `update({screen_recording_url}).match({id})` call. -/
def remoteSetRecordingUrl (remote : List RemoteRow) (dbRowId url : String) :
    List RemoteRow :=
  remote.map fun row =>
    if row.id = dbRowId then { row with screen_recording_url := some url }
    else row

/-- `launchStealthEvidenceEngine` (v6.0): request the display stream (a denial
is caught and only logged); on recorder stop, upload the blob; on a non-null
url, update the remote row and, only if that update succeeded, hot-update the
local vault entry to `Archived` with the url.  Every failure leaves the state
unchanged apart from log messages. -/
def launchStealthEvidenceEngine (s : SentinelState) (dbRowId : String)
    (env : EvidenceEnv) : SentinelState :=
  if env.permissionGranted then
    match env.vaultUrl with
    | some url =>
        if env.dbUpdateOk then
          { s with
              remote := remoteSetRecordingUrl s.remote dbRowId url,
              securityVault := archiveInVault s.securityVault dbRowId url }
        else s
    | none => s
  else s

/-- Result of one audit invocation: the post-state, whether the detection
branch ran (an Alert Workflow instance started), whether the evidence engine
was invoked, and the absolute time at which the re-arm `setTimeout` scheduled
by this invocation will fire (`none` when no timeout was scheduled). -/
structure AuditResult where
  state : SentinelState
  workflowStarted : Bool
  evidenceInvoked : Bool
  reArmAt : Option Nat
deriving DecidableEq, Repr

/-- `executeNeuralAudit` (v6.0), invoked at wall-clock time `now`.  Guard:
return unless `currentStatus == MONITORING`, a signature exists and
`isAiProcessing` is false.  A failed capture returns silently.  On detection:
set `ALERT`, drop the shield, then inside `try` set `isAiProcessing`, await
`analyzeIntrusion` (a rejection jumps to `catch`, skipping persist and
evidence), insert the remote row (an error throws to `catch`), prepend the
local record (status `Detected`, threat level `High`, no url), await the
evidence engine; `finally` clears `isAiProcessing`; afterwards —
unconditionally on every path of the detection branch — schedule the re-arm
timeout for `ALERT_DURATION` ms after the moment this statement runs, i.e.
after the awaited steps have consumed their durations. -/
def executeNeuralAudit (s : SentinelState) (now : Nat) (env : AuditEnv) :
    AuditResult :=
  if s.currentStatus ≠ SentinelStatus.MONITORING ∨
      s.biometricSignature = none ∨ s.isAiProcessing then
    ⟨s, false, false, none⟩
  else
    match env.frame with
    | none => ⟨s, false, false, none⟩
    | some frameData =>
      if env.threatDetected then
        let s1 : SentinelState :=
          { s with
              currentStatus := SentinelStatus.ALERT,
              isShieldActive := false,
              isAiProcessing := true }
        let afterSteps : SentinelState × Bool × Nat :=
          match env.classifyResult with
          | none => (s1, false, env.classifyMs)
          | some forensics =>
              if env.persistOk then
                let row : RemoteRow :=
                  { id := env.dbId, created_at := now,
                    intruder_image := frameData,
                    ai_analysis := some forensics,
                    threat_level := "High",
                    screen_recording_url := none }
                let newLog : SecurityLog :=
                  { id := env.dbId, timestamp := now,
                    intruderImage := frameData,
                    screenRecordingUrl := none,
                    status := LogStatus.Detected,
                    threatLevel := "High",
                    aiAnalysis := some forensics }
                let s2 : SentinelState :=
                  { s1 with
                      remote := s1.remote ++ [row],
                      securityVault := newLog :: s1.securityVault }
                (launchStealthEvidenceEngine s2 env.dbId env.evidence, true,
                  env.classifyMs + env.persistMs + env.evidenceMs)
              else (s1, false, env.classifyMs + env.persistMs)
        let s3 : SentinelState := { afterSteps.1 with isAiProcessing := false }
        ⟨{ s3 with pendingReArms := s3.pendingReArms + 1 }, true,
          afterSteps.2.1, some (now + afterSteps.2.2 + ALERT_DURATION)⟩
      else ⟨s, false, false, none⟩

/-- Body of the re-arm `setTimeout` (v6.0): restore `MONITORING` and
re-activate the shield.  A no-op when no timeout is pending. -/
def fireReArm (s : SentinelState) : SentinelState :=
  if s.pendingReArms = 0 then s
  else
    { s with
        currentStatus := SentinelStatus.MONITORING,
        isShieldActive := true,
        pendingReArms := s.pendingReArms - 1 }

/-- `toggleSentinelShield` (v6.0): with no signature, reject and force
`ENROLLING`; otherwise flip the shield flag and set the status to
`MONITORING` or `IDLE` accordingly.  Note: the function never inspects
`currentStatus`, so it behaves the same while in `ALERT`. -/
def toggleSentinelShield (s : SentinelState) : SentinelState :=
  if s.biometricSignature = none then
    { s with currentStatus := SentinelStatus.ENROLLING }
  else
    let nextShieldState := !s.isShieldActive
    { s with
        isShieldActive := nextShieldState,
        currentStatus :=
          if nextShieldState then SentinelStatus.MONITORING
          else SentinelStatus.IDLE }

/-- `handleBiometricEnrollment` (v6.0): a successful snapshot sets the
signature, `MONITORING` and the shield; a failed capture only logs. -/
def handleBiometricEnrollment (s : SentinelState) (snapshot : Option String) :
    SentinelState :=
  match snapshot with
  | some snap =>
      { s with
          biometricSignature := some snap,
          currentStatus := SentinelStatus.MONITORING,
          isShieldActive := true }
  | none => s

/-- `handleVaultPurge` (v6.0): after the confirm dialog, clear the local
vault list.  No Supabase call is made (the source carries a
"Production note: Add backend purge call here" comment). -/
def handleVaultPurge (s : SentinelState) (confirmed : Bool) : SentinelState :=
  if confirmed then { s with securityVault := [] } else s

/-- The audit-interval effect (v6.0), keyed on `isShieldActive`: when the
shield is active the interval is (re)installed, otherwise it is cleared; the
effect cleanup also clears it.  Net post-commit condition: the timer is armed
iff the shield is active. -/
def syncAuditTimer (s : SentinelState) : SentinelState :=
  if s.isShieldActive then { s with auditTimerArmed := true }
  else { s with auditTimerArmed := false }

/-- Mapping applied to each fetched remote row by the startup sync
(`initializeSentinel` in v6.0, `bootstrapVault` in v4.0): note the
unconditional `status: 'Archived'` while `screenRecordingUrl` is
`record.screen_recording_url || null`. -/
def mapRemoteRecord (row : RemoteRow) : SecurityLog :=
  { id := row.id, timestamp := row.created_at,
    intruderImage := row.intruder_image,
    aiAnalysis := row.ai_analysis,
    threatLevel := row.threat_level,
    status := LogStatus.Archived,
    screenRecordingUrl := row.screen_recording_url }

/-- Startup sync (`initializeSentinel`, v6.0): on a healthy database
connection, fetch the rows ordered by `created_at` descending with
`limit(50)` (the remote list is kept in insertion order, so the query
returns the reversed list truncated to 50), map them with the `Archived`
mapper, replace the local vault and set status `IDLE`; on failure set
`HARDWARE_FAULT`. -/
def bootstrapSentinel (s : SentinelState) (dbHealthy : Bool) : SentinelState :=
  if dbHealthy then
    { s with
        securityVault := (s.remote.reverse.take 50).map mapRemoteRecord,
        currentStatus := SentinelStatus.IDLE }
  else { s with currentStatus := SentinelStatus.HARDWARE_FAULT }

/-! ## v6.0 variant: event machine

Events seen by the component after startup: the arm/disarm button, the
enrollment button, an audit-interval tick (which invokes `executeNeuralAudit`
only when the interval is installed), an outstanding re-arm timeout firing,
and the vault-purge button.  After each handler the interval effect runs
(React commits the state updates and the `useEffect` keyed on
`isShieldActive` re-synchronises the timer). -/

/-- An input event of the v6.0 component. -/
inductive Event
  | toggleShield
  | enroll (snapshot : Option String)
  | auditTick (now : Nat) (env : AuditEnv)
  | reArmTimer
  | vaultPurge (confirmed : Bool)
deriving DecidableEq, Repr

/-- Result of one machine step: the committed state, whether the interval
fired `executeNeuralAudit`, and whether an Alert Workflow instance started. -/
structure StepOut where
  state : SentinelState
  auditInvoked : Bool
  workflowStarted : Bool
deriving DecidableEq, Repr

/-- One step of the v6.0 machine. -/
def step (s : SentinelState) : Event → StepOut
  | Event.toggleShield => ⟨syncAuditTimer (toggleSentinelShield s), false, false⟩
  | Event.enroll snapshot =>
      ⟨syncAuditTimer (handleBiometricEnrollment s snapshot), false, false⟩
  | Event.auditTick now env =>
      if s.auditTimerArmed then
        let r := executeNeuralAudit s now env
        ⟨syncAuditTimer r.state, true, r.workflowStarted⟩
      else ⟨s, false, false⟩
  | Event.reArmTimer => ⟨syncAuditTimer (fireReArm s), false, false⟩
  | Event.vaultPurge confirmed => ⟨handleVaultPurge s confirmed, false, false⟩

/-- Run a list of events. -/
def runTrace (s : SentinelState) : List Event → SentinelState
  | [] => s
  | e :: es => runTrace (step s e).state es

/-- Number of times the interval fired `executeNeuralAudit` along a trace. -/
def auditCount (s : SentinelState) : List Event → Nat
  | [] => 0
  | e :: es =>
      (if (step s e).auditInvoked then 1 else 0) + auditCount (step s e).state es

/-- Number of Alert Workflow instances started along a trace. -/
def workflowCount (s : SentinelState) : List Event → Nat
  | [] => 0
  | e :: es =>
      (if (step s e).workflowStarted then 1 else 0) +
        workflowCount (step s e).state es

/-- Events generated without user interaction: interval ticks and timer
firings. -/
def passiveEvent : Event → Bool
  | Event.auditTick _ _ => true
  | Event.reArmTimer => true
  | _ => false

/-- An audit-interval tick. -/
def tickEvent : Event → Bool
  | Event.auditTick _ _ => true
  | _ => false

/-- The component state right after mount, before any sync or user action:
no signature, empty vault, shield down, no timers (the `remote` list is the
pre-existing content of the Supabase table). -/
def initialState (remote : List RemoteRow) : SentinelState :=
  { currentStatus := SentinelStatus.BOOTING,
    biometricSignature := none,
    securityVault := [],
    isShieldActive := false,
    isAiProcessing := false,
    auditTimerArmed := false,
    pendingReArms := 0,
    remote := remote }

/-! ## v4.0 variant (`runSecurityAudit` et al.) -/

/-- State of the v4.0 `App` component, restricted to the fields the
monitoring state machine reads or writes.  `securityLevel` is the
'LOW'/'MEDIUM'/'HIGH'/'MAXIMUM' selector (it feeds the recorded threat
level). -/
structure GuardianState where
  mode : SecurityMode
  ownerFace : Option String
  logs : List SecurityLog
  isMonitoring : Bool
  isAiThinking : Bool
  isProcessingNeuralAudit : Bool
  securityLevel : String
  auditTimerArmed : Bool
  pendingReArms : Nat
  remote : List RemoteRow
deriving DecidableEq, Repr

/-- `executeStealthRecording` (v4.0): identical control flow to
`launchStealthEvidenceEngine`, acting on `logs`. -/
def executeStealthRecording (s : GuardianState) (dbRowId : String)
    (env : EvidenceEnv) : GuardianState :=
  if env.permissionGranted then
    match env.vaultUrl with
    | some url =>
        if env.dbUpdateOk then
          { s with
              remote := remoteSetRecordingUrl s.remote dbRowId url,
              logs := archiveInVault s.logs dbRowId url }
        else s
    | none => s
  else s

/-- Result of one `runSecurityAudit` invocation (v4.0). -/
structure GuardianAuditResult where
  state : GuardianState
  workflowStarted : Bool
  evidenceInvoked : Bool
  reArmAt : Option Nat
deriving DecidableEq, Repr

/-- `runSecurityAudit` (v4.0), invoked at wall-clock time `now`.  Guard:
return unless `mode == MONITORING`, an owner face exists and no audit is in
flight.  The in-flight flag is raised before capture and cleared at every
exit.  On detection: set `ALERT`, stop monitoring, immediately prepend a
local record under a temporary id (status `Detected`, no analysis, threat
level from `securityLevel`); inside `try` await `analyzeIntrusion` (a
rejection jumps to `catch`), insert the remote row, rewrite the local
record's id to the database id and attach the analysis, await the evidence
engine; `finally` clears `isAiThinking`; then schedule the re-arm timeout
for `ALERT_COOLDOWN` ms after that statement runs. -/
def runSecurityAudit (s : GuardianState) (now : Nat) (env : AuditEnv) :
    GuardianAuditResult :=
  if s.mode ≠ SecurityMode.MONITORING ∨ s.ownerFace = none ∨
      s.isProcessingNeuralAudit then
    ⟨s, false, false, none⟩
  else
    let s0 : GuardianState := { s with isProcessingNeuralAudit := true }
    match env.frame with
    | none => ⟨{ s0 with isProcessingNeuralAudit := false }, false, false, none⟩
    | some currentFrame =>
      if env.threatDetected then
        let tempId := toString now
        let level := if s.securityLevel = "MAXIMUM" then "High" else "Medium"
        let initialLog : SecurityLog :=
          { id := tempId, timestamp := now,
            intruderImage := currentFrame,
            screenRecordingUrl := none,
            status := LogStatus.Detected,
            threatLevel := level,
            aiAnalysis := none }
        let s1 : GuardianState :=
          { s0 with
              mode := SecurityMode.ALERT,
              isMonitoring := false,
              logs := initialLog :: s0.logs,
              isAiThinking := true }
        let afterSteps : GuardianState × Bool × Nat :=
          match env.classifyResult with
          | none => (s1, false, env.classifyMs)
          | some aiAnalysis =>
              if env.persistOk then
                let row : RemoteRow :=
                  { id := env.dbId, created_at := now,
                    intruder_image := currentFrame,
                    ai_analysis := some aiAnalysis,
                    threat_level := level,
                    screen_recording_url := none }
                let s2 : GuardianState :=
                  { s1 with
                      remote := s1.remote ++ [row],
                      logs := s1.logs.map fun l =>
                        if l.id = tempId then
                          { l with id := env.dbId, aiAnalysis := some aiAnalysis }
                        else l }
                (executeStealthRecording s2 env.dbId env.evidence, true,
                  env.classifyMs + env.persistMs + env.evidenceMs)
              else (s1, false, env.classifyMs + env.persistMs)
        let s3 : GuardianState :=
          { afterSteps.1 with isAiThinking := false,
                              isProcessingNeuralAudit := false }
        ⟨{ s3 with pendingReArms := s3.pendingReArms + 1 }, true,
          afterSteps.2.1, some (now + afterSteps.2.2 + ALERT_COOLDOWN)⟩
      else ⟨{ s0 with isProcessingNeuralAudit := false }, false, false, none⟩

/-- Body of the v4.0 re-arm `setTimeout`: restore `MONITORING` and
`isMonitoring`. -/
def fireGuardianReArm (s : GuardianState) : GuardianState :=
  if s.pendingReArms = 0 then s
  else
    { s with
        mode := SecurityMode.MONITORING,
        isMonitoring := true,
        pendingReArms := s.pendingReArms - 1 }

/-- `toggleArmingSystem` (v4.0): with no owner face, reject and force
`ENROLLING`; otherwise flip `isMonitoring` and set the mode accordingly.
The function never inspects `mode`, so it behaves the same during `ALERT`. -/
def toggleArmingSystem (s : GuardianState) : GuardianState :=
  if s.ownerFace = none then { s with mode := SecurityMode.ENROLLING }
  else
    let targetState := !s.isMonitoring
    { s with
        isMonitoring := targetState,
        mode :=
          if targetState then SecurityMode.MONITORING else SecurityMode.IDLE }

/-- `purgeLogs` (v4.0): after the confirm dialog, clear the local list; no
remote call is issued. -/
def purgeLogs (s : GuardianState) (confirmed : Bool) : GuardianState :=
  if confirmed then { s with logs := [] } else s

/-- The v4.0 audit-interval effect, keyed on `isMonitoring`. -/
def syncGuardianTimer (s : GuardianState) : GuardianState :=
  if s.isMonitoring then { s with auditTimerArmed := true }
  else { s with auditTimerArmed := false }

/-! ## geminiService.ts: `securityChat` request construction -/

/-- One turn of the chat history as held by the UI. -/
structure ChatTurn where
  role : String
  text : String
deriving DecidableEq, Repr

/-- The request `securityChat` hands to the external chat model. -/
structure ChatRequest where
  model : String
  systemInstruction : String
  message : String
deriving DecidableEq, Repr

/-- Request construction of `securityChat` (`src/services/geminiService.ts`):
`ai.chats.create` is called with only the model name and the system
instruction — the `history` parameter of the function is never read — and a
single `sendMessage` carries the user message. -/
def securityChatRequest (history : List ChatTurn) (message : String) :
    ChatRequest :=
  { model := "gemini-3-flash-preview",
    systemInstruction :=
      "You are the Sentinel AI Security Assistant. You help the user manage their laptop security. You can interpret logs, explain security breaches, and suggest safety measures. Keep responses concise and professional.",
    message := message }

/-! ## Auxiliary definitions used by the statements -/

/-- Local-vault invariant of the spec's record-integrity property: a record
is `Archived` only with a non-null recording url. -/
def VaultInv (s : SentinelState) : Prop :=
  ∀ l ∈ s.securityVault,
    l.status = LogStatus.Archived → l.screenRecordingUrl ≠ none

/-- Wall-clock time consumed by the awaited workflow steps before the re-arm
timeout is scheduled, as a function of the step outcomes: classify always
elapses; on a resolved classification the insert elapses as well; the
evidence engine runs (and elapses) only when the insert succeeded. -/
def stepsElapsedMs (env : AuditEnv) : Nat :=
  match env.classifyResult with
  | none => env.classifyMs
  | some _ =>
      if env.persistOk then env.classifyMs + env.persistMs + env.evidenceMs
      else env.classifyMs + env.persistMs

/-- A monitoring v6.0 state with an enrolled signature: shield up, interval
installed, nothing pending. -/
def sMon : SentinelState :=
  { currentStatus := SentinelStatus.MONITORING,
    biometricSignature := some "sig",
    securityVault := [],
    isShieldActive := true,
    isAiProcessing := false,
    auditTimerArmed := true,
    pendingReArms := 0,
    remote := [] }

/-- A v6.0 state in `ALERT` as the detection branch leaves it: shield down,
one re-arm timeout pending. -/
def sAlertLit : SentinelState :=
  { currentStatus := SentinelStatus.ALERT,
    biometricSignature := some "sig",
    securityVault := [],
    isShieldActive := false,
    isAiProcessing := false,
    auditTimerArmed := false,
    pendingReArms := 1,
    remote := [] }

/-- A monitoring v4.0 state with an enrolled owner face. -/
def gMon : GuardianState :=
  { mode := SecurityMode.MONITORING,
    ownerFace := some "face",
    logs := [],
    isMonitoring := true,
    isAiThinking := false,
    isProcessingNeuralAudit := false,
    securityLevel := "HIGH",
    auditTimerArmed := true,
    pendingReArms := 0,
    remote := [] }

/-- A v4.0 state in `ALERT`. -/
def gAlertLit : GuardianState :=
  { mode := SecurityMode.ALERT,
    ownerFace := some "face",
    logs := [],
    isMonitoring := false,
    isAiThinking := false,
    isProcessingNeuralAudit := false,
    securityLevel := "HIGH",
    auditTimerArmed := false,
    pendingReArms := 1,
    remote := [] }

/-- An audit environment whose detection fires and whose three service calls
all succeed. -/
def envDetect : AuditEnv :=
  { frame := some "f",
    threatDetected := true,
    classifyResult := some "intruder at keyboard",
    persistOk := true,
    dbId := "row1",
    evidence := { permissionGranted := true, vaultUrl := some "https://v/e",
                  dbUpdateOk := true },
    classifyMs := 1000,
    persistMs := 1000,
    evidenceMs := 2000 }

/-- An audit environment whose detection fires but whose `analyzeIntrusion`
call rejects; the persistence and evidence collaborators would succeed. -/
def envClassifyFail : AuditEnv :=
  { frame := some "f",
    threatDetected := true,
    classifyResult := none,
    persistOk := true,
    dbId := "row1",
    evidence := { permissionGranted := true, vaultUrl := some "https://v/e",
                  dbUpdateOk := true },
    classifyMs := 1000,
    persistMs := 500,
    evidenceMs := 2000 }

/-- An audit environment with no detection. -/
def envQuiet : AuditEnv :=
  { frame := some "f",
    threatDetected := false,
    classifyResult := some "owner",
    persistOk := true,
    dbId := "row2",
    evidence := { permissionGranted := true, vaultUrl := some "https://v/q",
                  dbUpdateOk := true },
    classifyMs := 1000,
    persistMs := 1000,
    evidenceMs := 2000 }

/-- A remote row whose recording url is null — the shape left behind whenever
the evidence step of an earlier run failed after the insert. -/
def orphanRow : RemoteRow :=
  { id := "r1", created_at := 5, intruder_image := "img",
    ai_analysis := some "someone typing", threat_level := "High",
    screen_recording_url := none }

/-- A v4.0 state with no enrolled owner face. -/
def gNoFace : GuardianState :=
  { mode := SecurityMode.IDLE,
    ownerFace := none,
    logs := [],
    isMonitoring := false,
    isAiThinking := false,
    isProcessingNeuralAudit := false,
    securityLevel := "HIGH",
    auditTimerArmed := false,
    pendingReArms := 0,
    remote := [] }

/-- Events driving the freshly-mounted v6.0 component into an alert:
enrollment, then one audit tick whose detection fires. -/
def alertTrace : List Event :=
  [Event.enroll (some "face"), Event.auditTick 1000 envDetect]

/-- The mid-alert state `alertTrace` reaches: `ALERT`, shield down, one
re-arm timeout pending. -/
def sAlert : SentinelState := runTrace (initialState []) alertTrace

/-- `alertTrace` followed by two toggle presses: during the alert the first
press re-arms the shield (the flag was cleared at alert entry) and the
second disarms it. -/
def disarmTrace : List Event :=
  alertTrace ++ [Event.toggleShield, Event.toggleShield]

/-- The post-disarm state `disarmTrace` reaches — `IDLE`, shield down,
interval cleared, but the alert's re-arm timeout still pending. -/
def sDisarmed : SentinelState := runTrace (initialState []) disarmTrace

/-! ## Helper lemmas -/

@[simp] theorem syncAuditTimer_currentStatus (s : SentinelState) :
    (syncAuditTimer s).currentStatus = s.currentStatus := by
  rw [syncAuditTimer]; split <;> rfl

@[simp] theorem syncAuditTimer_securityVault (s : SentinelState) :
    (syncAuditTimer s).securityVault = s.securityVault := by
  rw [syncAuditTimer]; split <;> rfl

@[simp] theorem syncAuditTimer_pendingReArms (s : SentinelState) :
    (syncAuditTimer s).pendingReArms = s.pendingReArms := by
  rw [syncAuditTimer]; split <;> rfl

@[simp] theorem syncAuditTimer_isShieldActive (s : SentinelState) :
    (syncAuditTimer s).isShieldActive = s.isShieldActive := by
  rw [syncAuditTimer]; split <;> rfl

@[simp] theorem syncAuditTimer_biometricSignature (s : SentinelState) :
    (syncAuditTimer s).biometricSignature = s.biometricSignature := by
  rw [syncAuditTimer]; split <;> rfl

@[simp] theorem syncAuditTimer_remote (s : SentinelState) :
    (syncAuditTimer s).remote = s.remote := by
  rw [syncAuditTimer]; split <;> rfl

/-- The v6.0 guard: an invocation during `ALERT` (or while a previous
invocation is in flight, or with no signature) is a complete no-op. -/
theorem executeNeuralAudit_guard (s : SentinelState) (now : Nat)
    (env : AuditEnv)
    (h : s.currentStatus ≠ SentinelStatus.MONITORING ∨
      s.biometricSignature = none ∨ s.isAiProcessing) :
    executeNeuralAudit s now env = ⟨s, false, false, none⟩ := by
  rw [executeNeuralAudit, if_pos h]

/-- The v4.0 guard behaves identically. -/
theorem runSecurityAudit_guard (g : GuardianState) (now : Nat)
    (env : AuditEnv)
    (h : g.mode ≠ SecurityMode.MONITORING ∨ g.ownerFace = none ∨
      g.isProcessingNeuralAudit) :
    runSecurityAudit g now env = ⟨g, false, false, none⟩ := by
  rw [runSecurityAudit, if_pos h]

@[simp] theorem toggleSentinelShield_securityVault (s : SentinelState) :
    (toggleSentinelShield s).securityVault = s.securityVault := by
  rw [toggleSentinelShield]; split <;> rfl

@[simp] theorem fireReArm_securityVault (s : SentinelState) :
    (fireReArm s).securityVault = s.securityVault := by
  rw [fireReArm]; split <;> rfl

@[simp] theorem handleBiometricEnrollment_securityVault (s : SentinelState)
    (snap : Option String) :
    (handleBiometricEnrollment s snap).securityVault = s.securityVault := by
  cases snap <;> rfl

/-- A list of records satisfying the integrity property stays correct when a
non-`Archived` record is prepended. -/
theorem logsInv_cons (l0 : SecurityLog) (v : List SecurityLog)
    (h0 : l0.status ≠ LogStatus.Archived)
    (h : ∀ l ∈ v, l.status = LogStatus.Archived → l.screenRecordingUrl ≠ none) :
    ∀ l ∈ l0 :: v, l.status = LogStatus.Archived →
      l.screenRecordingUrl ≠ none := by
  intro l hl
  rcases List.mem_cons.mp hl with rfl | hl
  · intro hst; exact absurd hst h0
  · exact h l hl

/-- The evidence-engine vault map preserves the integrity property: it only
ever sets `Archived` together with a concrete url. -/
theorem archiveInVault_inv (v : List SecurityLog) (dbRowId url : String)
    (h : ∀ l ∈ v, l.status = LogStatus.Archived → l.screenRecordingUrl ≠ none) :
    ∀ l ∈ archiveInVault v dbRowId url,
      l.status = LogStatus.Archived → l.screenRecordingUrl ≠ none := by
  intro l hl
  rw [archiveInVault] at hl
  obtain ⟨l0, hl0, rfl⟩ := List.mem_map.mp hl
  by_cases hid : l0.id = dbRowId
  · simp [hid]
  · simp only [hid, if_false, ite_false]
    exact h l0 hl0

/-- Transport of the vault invariant along an equal vault. -/
theorem vaultInv_of_eq {s t : SentinelState}
    (hv : t.securityVault = s.securityVault) (h : VaultInv s) : VaultInv t := by
  intro l hl
  rw [hv] at hl
  exact h l hl

/-- A single audit invocation preserves the record-integrity invariant of
the local vault: it creates records as `Detected` and only the evidence
engine flips one to `Archived`, attaching the uploaded url at the same
time. -/
theorem executeNeuralAudit_vault_inv (s : SentinelState) (now : Nat)
    (env : AuditEnv) (h : VaultInv s) :
    VaultInv ((executeNeuralAudit s now env).state) := by
  by_cases hg : s.currentStatus ≠ SentinelStatus.MONITORING ∨
      s.biometricSignature = none ∨ s.isAiProcessing
  · rw [executeNeuralAudit, if_pos hg]; exact h
  · rw [executeNeuralAudit, if_neg hg]
    obtain ⟨fr, th, cres, pok, dbid, ⟨perm, url, dok⟩, cms, pms, ems⟩ := env
    cases fr with
    | none => exact h
    | some f =>
      cases th with
      | false => exact h
      | true =>
        cases cres with
        | none => intro l hl; exact h l hl
        | some forensics =>
          cases pok with
          | false => intro l hl; exact h l hl
          | true =>
            cases perm with
            | false => intro l hl; exact logsInv_cons _ _ (by simp) h l hl
            | true =>
              cases url with
              | none => intro l hl; exact logsInv_cons _ _ (by simp) h l hl
              | some u =>
                cases dok with
                | false =>
                    intro l hl
                    exact logsInv_cons _ _ (by simp) h l hl
                | true =>
                    intro l hl
                    exact archiveInVault_inv _ _ _
                      (logsInv_cons _ _ (by simp) h) l hl

/-- Every machine step preserves the record-integrity invariant. -/
theorem step_vault_inv (s : SentinelState) (e : Event) (h : VaultInv s) :
    VaultInv (step s e).state := by
  cases e with
  | toggleShield => exact vaultInv_of_eq (by simp [step]) h
  | enroll snap => exact vaultInv_of_eq (by simp [step]) h
  | reArmTimer => exact vaultInv_of_eq (by simp [step]) h
  | vaultPurge c =>
      cases c with
      | false => exact vaultInv_of_eq (by simp [step, handleVaultPurge]) h
      | true => intro l hl; simp [step, handleVaultPurge] at hl
  | auditTick now env =>
      by_cases ht : s.auditTimerArmed
      · have : (step s (Event.auditTick now env)).state =
            syncAuditTimer (executeNeuralAudit s now env).state := by
          simp [step, ht]
        rw [this]
        exact vaultInv_of_eq (by simp) (executeNeuralAudit_vault_inv s now env h)
      · have : (step s (Event.auditTick now env)).state = s := by
          simp [step, ht]
        rw [this]; exact h

/-- Arbitrary traces preserve the record-integrity invariant. -/
theorem runTrace_vault_inv (es : List Event) :
    ∀ s : SentinelState, VaultInv s → VaultInv (runTrace s es) := by
  induction es with
  | nil => intro s h; exact h
  | cons e es ih =>
      intro s h
      rw [runTrace]
      exact ih _ (step_vault_inv s e h)

/-- With the interval cleared, the shield down and no pending re-arm
timeout, ticks and timer events never invoke the audit action. -/
theorem auditCount_passive_zero (es : List Event) :
    ∀ t : SentinelState, t.auditTimerArmed = false →
      t.isShieldActive = false → t.pendingReArms = 0 →
      es.all passiveEvent = true → auditCount t es = 0 := by
  induction es with
  | nil => intro t _ _ _ _; rfl
  | cons e es ih =>
    intro t h1 h2 h3 hes
    rw [List.all_cons, Bool.and_eq_true] at hes
    obtain ⟨he, hes⟩ := hes
    cases e with
    | auditTick now env =>
        have hstep : step t (Event.auditTick now env) = ⟨t, false, false⟩ := by
          rw [step, if_neg (by rw [h1]; simp)]
        rw [auditCount, hstep]
        simpa using ih t h1 h2 h3 hes
    | reArmTimer =>
        have hfire : fireReArm t = t := by rw [fireReArm, if_pos h3]
        have hstep : step t Event.reArmTimer =
            ⟨syncAuditTimer t, false, false⟩ := by rw [step, hfire]
        rw [auditCount, hstep]
        have ih' := ih (syncAuditTimer t)
          (by simp [syncAuditTimer, h2]) (by simp [h2]) (by simp [h3]) hes
        simpa using ih'
    | toggleShield => simp [passiveEvent] at he
    | enroll snap => simp [passiveEvent] at he
    | vaultPurge c => simp [passiveEvent] at he

/-- An audit tick in an `ALERT` state never starts a workflow and leaves the
status in `ALERT`. -/
theorem tick_alert_preserved (s : SentinelState) (now : Nat) (env : AuditEnv)
    (h : s.currentStatus = SentinelStatus.ALERT) :
    (step s (Event.auditTick now env)).state.currentStatus =
      SentinelStatus.ALERT ∧
    (step s (Event.auditTick now env)).workflowStarted = false := by
  have hno : executeNeuralAudit s now env = ⟨s, false, false, none⟩ :=
    executeNeuralAudit_guard s now env (Or.inl (by rw [h]; simp))
  by_cases ht : s.auditTimerArmed
  · simp [step, ht, hno, h]
  · simp [step, ht, h]

/-- Along any sequence of audit ticks starting in `ALERT`, no workflow
starts and the status stays `ALERT`. -/
theorem ticks_no_workflow (es : List Event) :
    ∀ s : SentinelState, s.currentStatus = SentinelStatus.ALERT →
      es.all tickEvent = true →
      workflowCount s es = 0 ∧
        (runTrace s es).currentStatus = SentinelStatus.ALERT := by
  induction es with
  | nil => intro s h _; exact ⟨rfl, h⟩
  | cons e es ih =>
    intro s h hes
    rw [List.all_cons, Bool.and_eq_true] at hes
    obtain ⟨he, hes⟩ := hes
    cases e with
    | auditTick now env =>
        obtain ⟨h1, h2⟩ := tick_alert_preserved s now env h
        obtain ⟨ihc, ihs⟩ := ih _ h1 hes
        exact ⟨by rw [workflowCount, h2, ihc]; simp, by rw [runTrace]; exact ihs⟩
    | toggleShield => simp [tickEvent] at he
    | enroll snap => simp [tickEvent] at he
    | reArmTimer => simp [tickEvent] at he
    | vaultPurge c => simp [tickEvent] at he

/-! ## Claim theorems -/

/-- **C10**: in the `geminiService.ts` variant, `securityChat` issues the same
request to the external chat model for any two histories and the same
message: the history argument has no influence on the request. -/
theorem C10_securityChat_ignores_history (h1 h2 : List ChatTurn) (m : String) :
    securityChatRequest h1 m = securityChatRequest h2 m := rfl

/-- **C9**: a confirmed vault purge empties the local incident list but
performs no remote operation (in either variant): the Supabase table is
unchanged for every confirmation outcome, and the next startup sync
re-populates the local list from the untouched remote rows. -/
theorem C9_purge_local_only (s : SentinelState) (g : GuardianState)
    (c : Bool) :
    (handleVaultPurge s c).remote = s.remote ∧
    (handleVaultPurge s true).securityVault = [] ∧
    (bootstrapSentinel (handleVaultPurge s true) true).securityVault =
      (s.remote.reverse.take 50).map mapRemoteRecord ∧
    (purgeLogs g c).remote = g.remote ∧
    (purgeLogs g true).logs = [] := by
  refine ⟨?_, ?_, ?_, ?_, ?_⟩
  · cases c <;> simp [handleVaultPurge]
  · simp [handleVaultPurge]
  · simp [handleVaultPurge, bootstrapSentinel]
  · cases c <;> simp [purgeLogs]
  · simp [purgeLogs]

/-- **C8**: invoking the arm toggle with no enrolled signature forces
`ENROLLING` (never `MONITORING`), leaves the shield flag untouched so the
interval effect does not install the scheduler, and — in general — the
toggle can only produce `MONITORING` when a signature exists.  Both variants
behave identically. -/
theorem C8_enrollment_gating (s : SentinelState) (g : GuardianState)
    (hs : s.biometricSignature = none) (hg : g.ownerFace = none) :
    (toggleSentinelShield s).currentStatus = SentinelStatus.ENROLLING ∧
    (toggleSentinelShield s).currentStatus ≠ SentinelStatus.MONITORING ∧
    (toggleSentinelShield s).isShieldActive = s.isShieldActive ∧
    (syncAuditTimer (toggleSentinelShield s)).auditTimerArmed =
      s.isShieldActive ∧
    (toggleArmingSystem g).mode = SecurityMode.ENROLLING ∧
    (toggleArmingSystem g).mode ≠ SecurityMode.MONITORING ∧
    (toggleArmingSystem g).isMonitoring = g.isMonitoring ∧
    (∀ t : SentinelState,
      (toggleSentinelShield t).currentStatus = SentinelStatus.MONITORING →
        t.biometricSignature ≠ none) := by
  refine ⟨?_, ?_, ?_, ?_, ?_, ?_, ?_, ?_⟩
  · rw [toggleSentinelShield, if_pos hs]
  · rw [toggleSentinelShield, if_pos hs]; simp
  · rw [toggleSentinelShield, if_pos hs]
  · rw [toggleSentinelShield, if_pos hs, syncAuditTimer]
    cases hb : s.isShieldActive <;> simp [hb]
  · rw [toggleArmingSystem, if_pos hg]
  · rw [toggleArmingSystem, if_pos hg]; simp
  · rw [toggleArmingSystem, if_pos hg]
  · intro t ht hn
    rw [toggleSentinelShield, if_pos hn] at ht
    simp at ht

/-- **C5**: at most one Alert Workflow instance is active at a time: an audit
invocation during `ALERT`, or while a previous invocation is in flight, is
rejected without touching the state (both variants), and along any sequence
of further audit ticks no second workflow starts until the re-arm fires —
the status stays `ALERT` throughout. -/
theorem C5_at_most_one_alert (s t : SentinelState) (g : GuardianState)
    (now : Nat) (env : AuditEnv) (es : List Event)
    (hs : s.currentStatus = SentinelStatus.ALERT)
    (htf : t.isAiProcessing = true)
    (hg : g.mode = SecurityMode.ALERT ∨ g.isProcessingNeuralAudit = true)
    (hes : es.all tickEvent = true) :
    executeNeuralAudit s now env = ⟨s, false, false, none⟩ ∧
    executeNeuralAudit t now env = ⟨t, false, false, none⟩ ∧
    runSecurityAudit g now env = ⟨g, false, false, none⟩ ∧
    workflowCount s es = 0 ∧
    (runTrace s es).currentStatus = SentinelStatus.ALERT := by
  obtain ⟨hc, hst⟩ := ticks_no_workflow es s hs hes
  refine ⟨?_, ?_, ?_, hc, hst⟩
  · exact executeNeuralAudit_guard s now env (Or.inl (by rw [hs]; simp))
  · exact executeNeuralAudit_guard t now env (Or.inr (Or.inr (by rw [htf])))
  · refine runSecurityAudit_guard g now env ?_
    rcases hg with hg | hg
    · exact Or.inl (by rw [hg]; simp)
    · exact Or.inr (Or.inr (by rw [hg]))

/-- Witness for C5 at concrete `ALERT` / in-flight states and two concrete
tick events. -/
theorem C5_at_most_one_alert_witness :
    sAlertLit.currentStatus = SentinelStatus.ALERT ∧
    ({ sMon with isAiProcessing := true } : SentinelState).isAiProcessing
      = true ∧
    (gAlertLit.mode = SecurityMode.ALERT ∨
      gAlertLit.isProcessingNeuralAudit = true) ∧
    ([Event.auditTick 0 envDetect, Event.auditTick 4000 envQuiet].all tickEvent
      = true) ∧
    (executeNeuralAudit sAlertLit 0 envDetect = ⟨sAlertLit, false, false, none⟩ ∧
      executeNeuralAudit { sMon with isAiProcessing := true } 0 envDetect =
        ⟨{ sMon with isAiProcessing := true }, false, false, none⟩ ∧
      runSecurityAudit gAlertLit 0 envDetect = ⟨gAlertLit, false, false, none⟩ ∧
      workflowCount sAlertLit
        [Event.auditTick 0 envDetect, Event.auditTick 4000 envQuiet] = 0 ∧
      (runTrace sAlertLit
        [Event.auditTick 0 envDetect, Event.auditTick 4000 envQuiet]).currentStatus
        = SentinelStatus.ALERT) :=
  ⟨rfl, rfl, Or.inl rfl, rfl,
    C5_at_most_one_alert sAlertLit { sMon with isAiProcessing := true }
      gAlertLit 0 envDetect
      [Event.auditTick 0 envDetect, Event.auditTick 4000 envQuiet]
      rfl rfl (Or.inl rfl) rfl⟩

/-- **C1**: once a detection has triggered the Alert Workflow, the re-arm
timeout is scheduled on every path — for each of the combinations of
classify, persist and evidence outcomes — and firing it returns the mode to
`MONITORING` with the shield restored and the interval effect re-installing
the scheduler; no failure combination leaves the system in `ALERT`.  Both
variants behave identically. -/
theorem C1_always_rearms (s : SentinelState) (g : GuardianState) (now : Nat)
    (env : AuditEnv) (sig face f : String)
    (h1 : s.currentStatus = SentinelStatus.MONITORING)
    (h2 : s.biometricSignature = some sig)
    (h3 : s.isAiProcessing = false)
    (g1 : g.mode = SecurityMode.MONITORING)
    (g2 : g.ownerFace = some face)
    (g3 : g.isProcessingNeuralAudit = false)
    (hf : env.frame = some f)
    (ht : env.threatDetected = true) :
    (executeNeuralAudit s now env).workflowStarted = true ∧
    (executeNeuralAudit s now env).state.currentStatus =
      SentinelStatus.ALERT ∧
    ((executeNeuralAudit s now env).reArmAt).isSome = true ∧
    (syncAuditTimer (fireReArm
        (executeNeuralAudit s now env).state)).currentStatus =
      SentinelStatus.MONITORING ∧
    (syncAuditTimer (fireReArm
        (executeNeuralAudit s now env).state)).isShieldActive = true ∧
    (syncAuditTimer (fireReArm
        (executeNeuralAudit s now env).state)).auditTimerArmed = true ∧
    (runSecurityAudit g now env).workflowStarted = true ∧
    ((runSecurityAudit g now env).reArmAt).isSome = true ∧
    (syncGuardianTimer (fireGuardianReArm
        (runSecurityAudit g now env).state)).mode = SecurityMode.MONITORING ∧
    (syncGuardianTimer (fireGuardianReArm
        (runSecurityAudit g now env).state)).isMonitoring = true ∧
    (syncGuardianTimer (fireGuardianReArm
        (runSecurityAudit g now env).state)).auditTimerArmed = true := by
  obtain ⟨fr, th, cres, pok, dbid, ⟨perm, url, dok⟩, cms, pms, ems⟩ := env
  simp only at hf ht
  subst hf ht
  cases cres <;> cases pok <;> cases perm <;> cases url <;> cases dok <;>
    simp [executeNeuralAudit, runSecurityAudit, launchStealthEvidenceEngine,
      executeStealthRecording, fireReArm, fireGuardianReArm, syncAuditTimer,
      syncGuardianTimer, h1, h2, h3, g1, g2, g3]

/-- Witness for C1 at a concrete monitoring state and the all-services-fail
environment (classify rejected; had it resolved, persist and evidence would
also have been exercised — the theorem covers every combination). -/
theorem C1_always_rearms_witness :
    sMon.currentStatus = SentinelStatus.MONITORING ∧
    sMon.biometricSignature = some "sig" ∧
    sMon.isAiProcessing = false ∧
    gMon.mode = SecurityMode.MONITORING ∧
    gMon.ownerFace = some "face" ∧
    gMon.isProcessingNeuralAudit = false ∧
    envClassifyFail.frame = some "f" ∧
    envClassifyFail.threatDetected = true ∧
    ((executeNeuralAudit sMon 0 envClassifyFail).workflowStarted = true ∧
      (executeNeuralAudit sMon 0 envClassifyFail).state.currentStatus =
        SentinelStatus.ALERT ∧
      ((executeNeuralAudit sMon 0 envClassifyFail).reArmAt).isSome = true ∧
      (syncAuditTimer (fireReArm
          (executeNeuralAudit sMon 0 envClassifyFail).state)).currentStatus =
        SentinelStatus.MONITORING ∧
      (syncAuditTimer (fireReArm
          (executeNeuralAudit sMon 0 envClassifyFail).state)).isShieldActive
        = true ∧
      (syncAuditTimer (fireReArm
          (executeNeuralAudit sMon 0 envClassifyFail).state)).auditTimerArmed
        = true ∧
      (runSecurityAudit gMon 0 envClassifyFail).workflowStarted = true ∧
      ((runSecurityAudit gMon 0 envClassifyFail).reArmAt).isSome = true ∧
      (syncGuardianTimer (fireGuardianReArm
          (runSecurityAudit gMon 0 envClassifyFail).state)).mode =
        SecurityMode.MONITORING ∧
      (syncGuardianTimer (fireGuardianReArm
          (runSecurityAudit gMon 0 envClassifyFail).state)).isMonitoring
        = true ∧
      (syncGuardianTimer (fireGuardianReArm
          (runSecurityAudit gMon 0 envClassifyFail).state)).auditTimerArmed
        = true) :=
  ⟨rfl, rfl, rfl, rfl, rfl, rfl, rfl, rfl,
    C1_always_rearms sMon gMon 0 envClassifyFail "sig" "face" "f"
      rfl rfl rfl rfl rfl rfl rfl rfl⟩

/-- **C6 counterexample**: with `analyzeIntrusion` rejecting and every other
collaborator able to succeed, a detection in a monitoring state persists
nothing to the remote store and never invokes the evidence engine (in the
v6.0 variant not even a local record is created) — the claim that a classify
failure leaves persist and evidence-gathering running is false. -/
theorem C6_counterexample :
    (executeNeuralAudit sMon 0 envClassifyFail).workflowStarted = true ∧
    (executeNeuralAudit sMon 0 envClassifyFail).state.remote = [] ∧
    (executeNeuralAudit sMon 0 envClassifyFail).state.securityVault = [] ∧
    (executeNeuralAudit sMon 0 envClassifyFail).evidenceInvoked = false ∧
    (runSecurityAudit gMon 0 envClassifyFail).state.remote = [] ∧
    (runSecurityAudit gMon 0 envClassifyFail).evidenceInvoked = false := by
  decide

/-- **C6 amended**: a classify failure is caught and logged but the `catch`
skips the remaining steps: no record is persisted to the remote store and
the evidence engine is never invoked; the local vault is unchanged in the
v6.0 variant, while the v4.0 variant keeps the record it prepended before
the `try` (status `Detected`, no classification, no url).  The failure never
prevents the re-arm timeout from being scheduled. -/
theorem C6_classify_failure_contained (s : SentinelState) (g : GuardianState)
    (now : Nat) (env : AuditEnv) (sig face f : String)
    (h1 : s.currentStatus = SentinelStatus.MONITORING)
    (h2 : s.biometricSignature = some sig)
    (h3 : s.isAiProcessing = false)
    (g1 : g.mode = SecurityMode.MONITORING)
    (g2 : g.ownerFace = some face)
    (g3 : g.isProcessingNeuralAudit = false)
    (hf : env.frame = some f)
    (ht : env.threatDetected = true)
    (hc : env.classifyResult = none) :
    (executeNeuralAudit s now env).workflowStarted = true ∧
    (executeNeuralAudit s now env).state.remote = s.remote ∧
    (executeNeuralAudit s now env).state.securityVault = s.securityVault ∧
    (executeNeuralAudit s now env).evidenceInvoked = false ∧
    ((executeNeuralAudit s now env).reArmAt).isSome = true ∧
    (runSecurityAudit g now env).state.remote = g.remote ∧
    (runSecurityAudit g now env).evidenceInvoked = false ∧
    ((runSecurityAudit g now env).reArmAt).isSome = true ∧
    (runSecurityAudit g now env).state.logs =
      { id := toString now, timestamp := now, intruderImage := f,
        screenRecordingUrl := none, status := LogStatus.Detected,
        threatLevel :=
          if g.securityLevel = "MAXIMUM" then "High" else "Medium",
        aiAnalysis := none } :: g.logs := by
  obtain ⟨fr, th, cres, pok, dbid, ⟨perm, url, dok⟩, cms, pms, ems⟩ := env
  simp only at hf ht hc
  subst hf ht hc
  simp [executeNeuralAudit, runSecurityAudit, h1, h2, h3, g1, g2, g3]

/-- Witness for the amended C6 at concrete monitoring states and the
classify-failure environment. -/
theorem C6_classify_failure_contained_witness :
    sMon.currentStatus = SentinelStatus.MONITORING ∧
    sMon.biometricSignature = some "sig" ∧
    sMon.isAiProcessing = false ∧
    gMon.mode = SecurityMode.MONITORING ∧
    gMon.ownerFace = some "face" ∧
    gMon.isProcessingNeuralAudit = false ∧
    envClassifyFail.frame = some "f" ∧
    envClassifyFail.threatDetected = true ∧
    envClassifyFail.classifyResult = none ∧
    ((executeNeuralAudit sMon 7 envClassifyFail).workflowStarted = true ∧
      (executeNeuralAudit sMon 7 envClassifyFail).state.remote = sMon.remote ∧
      (executeNeuralAudit sMon 7 envClassifyFail).state.securityVault =
        sMon.securityVault ∧
      (executeNeuralAudit sMon 7 envClassifyFail).evidenceInvoked = false ∧
      ((executeNeuralAudit sMon 7 envClassifyFail).reArmAt).isSome = true ∧
      (runSecurityAudit gMon 7 envClassifyFail).state.remote = gMon.remote ∧
      (runSecurityAudit gMon 7 envClassifyFail).evidenceInvoked = false ∧
      ((runSecurityAudit gMon 7 envClassifyFail).reArmAt).isSome = true ∧
      (runSecurityAudit gMon 7 envClassifyFail).state.logs =
        { id := toString 7, timestamp := 7, intruderImage := "f",
          screenRecordingUrl := none, status := LogStatus.Detected,
          threatLevel :=
            if gMon.securityLevel = "MAXIMUM" then "High" else "Medium",
          aiAnalysis := none } :: gMon.logs) :=
  ⟨rfl, rfl, rfl, rfl, rfl, rfl, rfl, rfl, rfl,
    C6_classify_failure_contained sMon gMon 7 envClassifyFail "sig" "face" "f"
      rfl rfl rfl rfl rfl rfl rfl rfl rfl⟩

/-- **C7 counterexample**: with classify, persist and evidence each consuming
time (1000/1000/2000 ms, all succeeding) and a detection at t = 0, the v6.0
re-arm timeout fires at 34000 ms — not at `0 + ALERT_DURATION = 30000` as a
cooldown-from-alert-entry would give — and the v4.0 timeout fires at
29000 ms, not `0 + ALERT_COOLDOWN = 25000`. -/
theorem C7_counterexample :
    (executeNeuralAudit sMon 0 envDetect).reArmAt = some 34000 ∧
    ¬ (34000 : Nat) = 0 + ALERT_DURATION ∧
    (runSecurityAudit gMon 0 envDetect).reArmAt = some 29000 ∧
    ¬ (29000 : Nat) = 0 + ALERT_COOLDOWN := by
  decide

/-- **C7 amended**: the re-arm `setTimeout` is scheduled only after the
awaited classify/persist/evidence steps have resolved, so it fires at
(alert-entry time) + (time consumed by those steps) + cooldown — i.e.
strictly later than a fixed cooldown from alert entry whenever the steps
consume any time at all. -/
theorem C7_rearm_counts_from_completion (s : SentinelState)
    (g : GuardianState) (now : Nat) (env : AuditEnv) (sig face f : String)
    (h1 : s.currentStatus = SentinelStatus.MONITORING)
    (h2 : s.biometricSignature = some sig)
    (h3 : s.isAiProcessing = false)
    (g1 : g.mode = SecurityMode.MONITORING)
    (g2 : g.ownerFace = some face)
    (g3 : g.isProcessingNeuralAudit = false)
    (hf : env.frame = some f)
    (ht : env.threatDetected = true) :
    (executeNeuralAudit s now env).reArmAt =
      some (now + stepsElapsedMs env + ALERT_DURATION) ∧
    (runSecurityAudit g now env).reArmAt =
      some (now + stepsElapsedMs env + ALERT_COOLDOWN) ∧
    (0 < env.classifyMs →
      now + ALERT_DURATION < now + stepsElapsedMs env + ALERT_DURATION) := by
  obtain ⟨fr, th, cres, pok, dbid, ⟨perm, url, dok⟩, cms, pms, ems⟩ := env
  simp only at hf ht
  subst hf ht
  cases cres <;> cases pok <;>
    simp [executeNeuralAudit, runSecurityAudit, stepsElapsedMs,
      launchStealthEvidenceEngine, executeStealthRecording, h1, h2, h3, g1,
      g2, g3] <;> omega

/-- Witness for the amended C7 at a detection at t = 0 with the
all-succeeding environment (steps consume 4000 ms in total). -/
theorem C7_rearm_counts_from_completion_witness :
    sMon.currentStatus = SentinelStatus.MONITORING ∧
    sMon.biometricSignature = some "sig" ∧
    sMon.isAiProcessing = false ∧
    gMon.mode = SecurityMode.MONITORING ∧
    gMon.ownerFace = some "face" ∧
    gMon.isProcessingNeuralAudit = false ∧
    envDetect.frame = some "f" ∧
    envDetect.threatDetected = true ∧
    ((executeNeuralAudit sMon 0 envDetect).reArmAt =
        some (0 + stepsElapsedMs envDetect + ALERT_DURATION) ∧
      (runSecurityAudit gMon 0 envDetect).reArmAt =
        some (0 + stepsElapsedMs envDetect + ALERT_COOLDOWN) ∧
      (0 < envDetect.classifyMs →
        0 + ALERT_DURATION < 0 + stepsElapsedMs envDetect + ALERT_DURATION)) :=
  ⟨rfl, rfl, rfl, rfl, rfl, rfl, rfl, rfl,
    C7_rearm_counts_from_completion sMon gMon 0 envDetect "sig" "face" "f"
      rfl rfl rfl rfl rfl rfl rfl rfl⟩

/-- Witness for C8 at the freshly-mounted state (no signature) and a v4.0
state with no owner face. -/
theorem C8_enrollment_gating_witness :
    (initialState []).biometricSignature = none ∧ gNoFace.ownerFace = none ∧
    ((toggleSentinelShield (initialState [])).currentStatus =
        SentinelStatus.ENROLLING ∧
      (toggleSentinelShield (initialState [])).currentStatus ≠
        SentinelStatus.MONITORING ∧
      (toggleSentinelShield (initialState [])).isShieldActive =
        (initialState []).isShieldActive ∧
      (syncAuditTimer (toggleSentinelShield (initialState []))).auditTimerArmed
        = (initialState []).isShieldActive ∧
      (toggleArmingSystem gNoFace).mode = SecurityMode.ENROLLING ∧
      (toggleArmingSystem gNoFace).mode ≠ SecurityMode.MONITORING ∧
      (toggleArmingSystem gNoFace).isMonitoring = gNoFace.isMonitoring ∧
      (∀ t : SentinelState,
        (toggleSentinelShield t).currentStatus = SentinelStatus.MONITORING →
          t.biometricSignature ≠ none)) :=
  ⟨rfl, rfl, C8_enrollment_gating (initialState []) gNoFace rfl rfl⟩

/-- **C2 counterexample**: drive the component from mount into an alert
(`sAlert` is in `ALERT` with a pending re-arm timeout); one press of the
arm/disarm toggle already changes the mode to `MONITORING` — `ALERT` does
not ignore the toggle — and a second press reaches `IDLE` mid-flight. -/
theorem C2_counterexample :
    sAlert.currentStatus = SentinelStatus.ALERT ∧
    sAlert.pendingReArms = 1 ∧
    (toggleSentinelShield sAlert).currentStatus = SentinelStatus.MONITORING ∧
    (toggleSentinelShield (toggleSentinelShield sAlert)).currentStatus =
      SentinelStatus.IDLE := by
  decide

/-- **C2 amended**: the toggle never inspects the mode, so `ALERT` is not
authoritative: because the shield flag is cleared at alert entry, the first
press during an alert re-arms (mode `MONITORING`) and a second press
disarms to `IDLE`.  What does survive is the re-arm timeout: no press
cancels it, and once it fires the mode is `MONITORING` with the shield up
again.  Both variants behave identically. -/
theorem C2_alert_does_not_ignore_toggle (s : SentinelState)
    (g : GuardianState) (sig face : String)
    (h1 : s.currentStatus = SentinelStatus.ALERT)
    (h2 : s.biometricSignature = some sig)
    (h3 : s.isShieldActive = false)
    (g1 : g.mode = SecurityMode.ALERT)
    (g2 : g.ownerFace = some face)
    (g3 : g.isMonitoring = false) :
    (toggleSentinelShield s).currentStatus = SentinelStatus.MONITORING ∧
    (toggleSentinelShield (toggleSentinelShield s)).currentStatus =
      SentinelStatus.IDLE ∧
    (toggleSentinelShield s).pendingReArms = s.pendingReArms ∧
    (toggleSentinelShield (toggleSentinelShield s)).pendingReArms =
      s.pendingReArms ∧
    (0 < s.pendingReArms →
      (fireReArm (toggleSentinelShield
          (toggleSentinelShield s))).currentStatus =
        SentinelStatus.MONITORING ∧
      (fireReArm (toggleSentinelShield
          (toggleSentinelShield s))).isShieldActive = true) ∧
    (toggleArmingSystem g).mode = SecurityMode.MONITORING ∧
    (toggleArmingSystem (toggleArmingSystem g)).mode = SecurityMode.IDLE ∧
    (toggleArmingSystem g).pendingReArms = g.pendingReArms := by
  refine ⟨?_, ?_, ?_, ?_, ?_, ?_, ?_, ?_⟩
  · simp [toggleSentinelShield, h2, h3]
  · simp [toggleSentinelShield, h2, h3]
  · simp [toggleSentinelShield, h2, h3]
  · simp [toggleSentinelShield, h2, h3]
  · intro hp
    have hnz : ¬ s.pendingReArms = 0 := by omega
    constructor <;> simp [toggleSentinelShield, fireReArm, h2, h3, hnz]
  · simp [toggleArmingSystem, g2, g3]
  · simp [toggleArmingSystem, g2, g3]
  · simp [toggleArmingSystem, g2, g3]

/-- Witness for the amended C2 at a literal mid-alert state (one timeout
pending) in each variant. -/
theorem C2_alert_does_not_ignore_toggle_witness :
    sAlertLit.currentStatus = SentinelStatus.ALERT ∧
    sAlertLit.biometricSignature = some "sig" ∧
    sAlertLit.isShieldActive = false ∧
    gAlertLit.mode = SecurityMode.ALERT ∧
    gAlertLit.ownerFace = some "face" ∧
    gAlertLit.isMonitoring = false ∧
    ((toggleSentinelShield sAlertLit).currentStatus =
        SentinelStatus.MONITORING ∧
      (toggleSentinelShield (toggleSentinelShield sAlertLit)).currentStatus =
        SentinelStatus.IDLE ∧
      (toggleSentinelShield sAlertLit).pendingReArms =
        sAlertLit.pendingReArms ∧
      (toggleSentinelShield (toggleSentinelShield sAlertLit)).pendingReArms =
        sAlertLit.pendingReArms ∧
      (0 < sAlertLit.pendingReArms →
        (fireReArm (toggleSentinelShield
            (toggleSentinelShield sAlertLit))).currentStatus =
          SentinelStatus.MONITORING ∧
        (fireReArm (toggleSentinelShield
            (toggleSentinelShield sAlertLit))).isShieldActive = true) ∧
      (toggleArmingSystem gAlertLit).mode = SecurityMode.MONITORING ∧
      (toggleArmingSystem (toggleArmingSystem gAlertLit)).mode =
        SecurityMode.IDLE ∧
      (toggleArmingSystem gAlertLit).pendingReArms =
        gAlertLit.pendingReArms) :=
  ⟨rfl, rfl, rfl, rfl, rfl, rfl,
    C2_alert_does_not_ignore_toggle sAlertLit gAlertLit "sig" "face"
      rfl rfl rfl rfl rfl rfl⟩

/-- **C3 counterexample**: the startup sync marks every fetched row
`Archived`, including `orphanRow`, whose `screen_recording_url` is null —
the loaded record is `Archived` with a null `evidenceUrl`. -/
theorem C3_counterexample :
    (bootstrapSentinel (initialState [orphanRow]) true).securityVault =
      [mapRemoteRecord orphanRow] ∧
    (mapRemoteRecord orphanRow).status = LogStatus.Archived ∧
    (mapRemoteRecord orphanRow).screenRecordingUrl = none := by
  decide

/-- **C3 amended**: every record created at detection or updated by the
evidence engine respects the integrity invariant — `Archived` only with a
non-null recording url — and the invariant is preserved by every event
(ticks with any outcome combination, toggles, enrollment, timer firings,
purges); only the startup sync breaks it, by unconditionally loading remote
rows as `Archived` even when their `screen_recording_url` is null. -/
theorem C3_record_integrity_amended (s : SentinelState) (es : List Event)
    (h : VaultInv s) : VaultInv (runTrace s es) :=
  runTrace_vault_inv es s h

/-- Witness for the amended C3: the empty initial vault satisfies the
invariant, and it still holds after a full alert (detection, persist,
evidence upload marking the record `Archived`) followed by a toggle. -/
theorem C3_record_integrity_amended_witness :
    VaultInv (initialState []) ∧
    VaultInv (runTrace (initialState []) disarmTrace) :=
  ⟨by intro l hl; simp [initialState] at hl,
    C3_record_integrity_amended (initialState []) disarmTrace
      (by intro l hl; simp [initialState] at hl)⟩

/-- **C4 counterexample**: enroll, let one tick raise an alert, press the
toggle twice (re-arm, then disarm: `sDisarmed` is `IDLE`, shield down,
interval cleared) — yet the alert's re-arm timeout is still pending, and
after it fires the next interval tick invokes the audit action again: one
audit invocation strictly after the disarm. -/
theorem C4_counterexample :
    sDisarmed.currentStatus = SentinelStatus.IDLE ∧
    sDisarmed.isShieldActive = false ∧
    sDisarmed.auditTimerArmed = false ∧
    sDisarmed.pendingReArms = 1 ∧
    auditCount sDisarmed [Event.reArmTimer, Event.auditTick 40000 envQuiet]
      = 1 := by
  decide

/-- **C4 amended**: the interval effect does clear the audit timer the
moment the shield deactivates, so a disarm from a monitoring state with no
pending re-arm timeout yields `IDLE` with the timer cleared, and no amount
of subsequently elapsing time (ticks, timer events) ever invokes the audit
action again.  The guarantee fails only when an alert's re-arm timeout is
still pending at disarm time: that timeout is never cancelled and re-arms
the scheduler (the counterexample). -/
theorem C4_no_orphaned_audits_amended (s : SentinelState) (sig : String)
    (es : List Event)
    (h1 : s.isShieldActive = true)
    (h2 : s.biometricSignature = some sig)
    (h3 : s.pendingReArms = 0)
    (hes : es.all passiveEvent = true) :
    (step s Event.toggleShield).state.currentStatus = SentinelStatus.IDLE ∧
    (step s Event.toggleShield).state.auditTimerArmed = false ∧
    auditCount (step s Event.toggleShield).state es = 0 := by
  refine ⟨?_, ?_, ?_⟩
  · simp [step, toggleSentinelShield, h1, h2]
  · simp [step, toggleSentinelShield, syncAuditTimer, h1, h2]
  · refine auditCount_passive_zero es _ ?_ ?_ ?_ hes
    · simp [step, toggleSentinelShield, syncAuditTimer, h1, h2]
    · simp [step, toggleSentinelShield, h1, h2]
    · simp [step, toggleSentinelShield, h2, h3]

/-- Witness for the amended C4: disarming from the monitoring state with
nothing pending, then letting a timer event and an interval tick elapse,
produces zero audit invocations. -/
theorem C4_no_orphaned_audits_amended_witness :
    sMon.isShieldActive = true ∧
    sMon.biometricSignature = some "sig" ∧
    sMon.pendingReArms = 0 ∧
    ([Event.reArmTimer, Event.auditTick 90000 envQuiet].all passiveEvent
      = true) ∧
    ((step sMon Event.toggleShield).state.currentStatus =
        SentinelStatus.IDLE ∧
      (step sMon Event.toggleShield).state.auditTimerArmed = false ∧
      auditCount (step sMon Event.toggleShield).state
        [Event.reArmTimer, Event.auditTick 90000 envQuiet] = 0) :=
  ⟨rfl, rfl, rfl, rfl,
    C4_no_orphaned_audits_amended sMon "sig"
      [Event.reArmTimer, Event.auditTick 90000 envQuiet] rfl rfl rfl rfl⟩

end SecureRecoder
